import Mathlib

/-!
Shallow embedding of `iyes_splash` (src/src/lib.rs, Bevy 0.8).

Time is modelled in integer nanoseconds (`ℕ`), exactly as in the source:
Bevy's `Timer` stores `std::time::Duration` values (unsigned integer
nanoseconds), the frame delta `Time::delta()` is a `Duration`, and the
`elapsed >= duration` comparisons in `Timer::tick` are exact `Duration`
comparisons. A `Duration` is non-negative by construction, so no sign
hypotheses are needed on deltas. The stage durations passed to
`SplashFade::new` go through `Duration::from_secs_f32`; every constant used
by the source (0, 0.25, 0.5, 0.75, 1.0, 1.25, 1.5, 1.75 seconds) is exactly
representable both as an `f32` and as whole nanoseconds.

The derived sprite alpha values (`Timer::percent`, `Timer::percent_left`)
are `f32` ratios in the source; they are modelled as exact rationals (`ℚ`).
The source's rounding of those ratios to `f32` is not modelled; no theorem
below depends on it. The one genuinely float-only point — `percent()` of a
zero-duration timer is `0.0/0.0 = NaN` in Rust, while division by zero in
`ℚ` yields 0 — is kept out of every theorem by explicit `0 < duration`
hypotheses on the branches that divide.
-/

namespace IyesSplash

/-- Bevy 0.8 `Timer` (bevy_time/src/timer.rs), non-repeating mode only, as
used by `SplashFade`: `duration` and the elapsed stopwatch in nanoseconds,
plus a stored `finished` flag that starts out `false` and is recomputed on
every `tick`. -/
structure Timer where
  duration : ℕ
  elapsed : ℕ
  finished : Bool
deriving DecidableEq

/-- `Timer::from_seconds(d, false)`: elapsed 0 and the `finished` flag
`false`, whatever `d` is — a fresh zero-duration timer is NOT yet finished
(the flag only becomes true inside `tick`). -/
def Timer.fromSeconds (d : ℕ) : Timer :=
  { duration := d, elapsed := 0, finished := false }

/-- `Timer::tick(delta)` for an unpaused, non-repeating timer: an
already-finished timer is left alone; otherwise the stopwatch advances and
`finished` becomes `elapsed >= duration`, with `elapsed` clamped to
`duration` on finish (`set_elapsed(duration)` in the source). -/
def Timer.tick (tm : Timer) (d : ℕ) : Timer :=
  if tm.finished then tm
  else
    let e := tm.elapsed + d
    if tm.duration ≤ e then
      { duration := tm.duration, elapsed := tm.duration, finished := true }
    else
      { duration := tm.duration, elapsed := e, finished := false }

/-- `Timer::percent()` = elapsed / duration, as an exact rational (in Rust
`0.0/0.0 = NaN` when the duration is zero; theorems that mention `percent`
carry a `0 < duration` hypothesis). -/
def Timer.percent (tm : Timer) : ℚ := (tm.elapsed : ℚ) / (tm.duration : ℚ)

/-- `Timer::percent_left()` = 1 − percent(). -/
def Timer.percent_left (tm : Timer) : ℚ := 1 - tm.percent

/-- The slice of Bevy's `Sprite` that `splash_fade` touches: the alpha
channel of its color (`sprite.color.set_a(..)`). -/
structure Sprite where
  a : ℚ
deriving DecidableEq

/-- The `SplashFade` component: four non-repeating timers, one per stage. -/
structure SplashFade where
  timer_wait : Timer
  timer_intro : Timer
  timer_on : Timer
  timer_fade : Timer
deriving DecidableEq

/-- `SplashFade::new(wait, intro, on, fade)`, durations in nanoseconds (the
`on` argument is named `hold` here, `on` being reserved in Lean). -/
def SplashFade.new (wait intro hold fade : ℕ) : SplashFade :=
  { timer_wait := .fromSeconds wait
    timer_intro := .fromSeconds intro
    timer_on := .fromSeconds hold
    timer_fade := .fromSeconds fade }

/-- The body of the `for` loop in `splash_fade`, for one queried entity: the
`if`/`else if` chain over the four timers, in source order. Returns the
updated `(sprite, fade)` pair and this item's contribution to
`all_finished` — `true` exactly when no branch fired (the Rust loop starts
with `all_finished = true` and each taken branch sets it `false`). Note the
asymmetry copied from the source: the wait and intro branches are guarded by
`duration().as_secs_f32() > 0.0`, the on (hold) and fade branches are not. -/
def fadeStep (d : ℕ) (p : Sprite × SplashFade) : (Sprite × SplashFade) × Bool :=
  let s := p.1
  let f := p.2
  if 0 < f.timer_wait.duration ∧ f.timer_wait.finished = false then
    (({ a := 0 }, { f with timer_wait := f.timer_wait.tick d }), false)
  else if 0 < f.timer_intro.duration ∧ f.timer_intro.finished = false then
    let t := f.timer_intro.tick d
    (({ a := t.percent }, { f with timer_intro := t }), false)
  else if f.timer_on.finished = false then
    (({ a := 1 }, { f with timer_on := f.timer_on.tick d }), false)
  else if f.timer_fade.finished = false then
    let t := f.timer_fade.tick d
    (({ a := t.percent_left }, { f with timer_fade := t }), false)
  else
    ((s, f), true)

/-- Bevy 0.8 `ButtonState` (shared by `KeyboardInput` and
`MouseButtonInput`). -/
inductive ButtonState where
  | Pressed
  | Released
deriving DecidableEq

/-- Bevy 0.8 `KeyboardInput`; only the `state` field is read by
`splash_skip` (the scan code and key code are ignored, so they are not
modelled). -/
structure KeyboardInput where
  state : ButtonState
deriving DecidableEq

/-- Bevy 0.8 `MouseButtonInput`; only the `state` field is read by
`splash_skip`. -/
structure MouseButtonInput where
  state : ButtonState
deriving DecidableEq

/-- Bevy 0.8 `GamepadEventType`. `ButtonChanged(button, value)` is emitted
for EVERY change of a button's value: pressing sends value 1.0 (or an
analog value > 0), releasing sends value 0.0. Button and axis identities
are irrelevant to `splash_skip` and modelled as `ℕ`; values as `ℚ`. -/
inductive GamepadEventType where
  | Connected
  | Disconnected
  | ButtonChanged (button : ℕ) (value : ℚ)
  | AxisChanged (axis : ℕ) (value : ℚ)
deriving DecidableEq

/-- Bevy 0.8 `GamepadEvent`; the gamepad id is ignored by `splash_skip`. -/
structure GamepadEvent where
  event_type : GamepadEventType
deriving DecidableEq

/-- Bevy 0.8 `TouchPhase`. -/
inductive TouchPhase where
  | Started
  | Moved
  | Ended
  | Cancelled
deriving DecidableEq

/-- Bevy 0.8 `TouchInput`; only the `phase` field is read by
`splash_skip`. -/
structure TouchInput where
  phase : TouchPhase
deriving DecidableEq

/-- The four event batches delivered to `splash_skip`'s `EventReader`s for
one tick. -/
structure InputBatch where
  kbd : List KeyboardInput
  mouse : List MouseButtonInput
  gamepad : List GamepadEvent
  touch : List TouchInput
deriving DecidableEq

def ButtonState.isPressed : ButtonState → Bool
  | .Pressed => true
  | .Released => false

def GamepadEventType.isButtonChanged : GamepadEventType → Bool
  | .ButtonChanged _ _ => true
  | _ => false

def TouchPhase.isStarted : TouchPhase → Bool
  | .Started => true
  | _ => false

/-- The `done` flag computed by `splash_skip`'s four event loops: it starts
`false` and is set by any keyboard press, any mouse-button press, ANY
gamepad `ButtonChanged` event (the source matches
`GamepadEventType::ButtonChanged(_, _)`, which does not look at the value,
so releases qualify too), or any touch in phase `Started`. -/
def splashSkipDone (b : InputBatch) : Bool :=
  b.kbd.any (fun e => e.state.isPressed) ||
  b.mouse.any (fun e => e.state.isPressed) ||
  b.gamepad.any (fun e => e.event_type.isButtonChanged) ||
  b.touch.any (fun e => e.phase.isStarted)

/-- Follows the spec's words, for comparison with `splashSkipDone` (§4.4 and
§8: qualifying events are "press/start transitions only, never release or
move/held events": key press, mouse-button press, gamepad button press —
a `ButtonChanged` whose new value is positive — and touch start). -/
def containsPressStartSpec (b : InputBatch) : Bool :=
  b.kbd.any (fun e => e.state.isPressed) ||
  b.mouse.any (fun e => e.state.isPressed) ||
  b.gamepad.any (fun e =>
    match e.event_type with
    | .ButtonChanged _ v => decide (0 < v)
    | _ => false) ||
  b.touch.any (fun e => e.phase.isStarted)

/-- The app states named by `SplashPlugin::build` and the splash systems.
`AppGlobalState` is referenced by the source but its declaration lives in
the host application; these four variants are the ones the source file
names. -/
inductive AppGlobalState where
  | SplashIyes
  | SplashBevy
  | MainMenu
  | AssetsLoading
deriving DecidableEq

/-- One ECS entity, restricted to the components this file reads or writes:
the `SplashCleanup` marker, the sprite (alpha), and the optional
`SplashFade` component. `splash_fade`'s query
`Query<(&mut Sprite, &mut SplashFade)>` matches exactly the entities whose
`fade` is `some`; the camera spawned by the init systems has no
`SplashFade` and is outside the query. -/
structure Entity where
  cleanup : Bool
  sprite : Sprite
  fade : Option SplashFade
deriving DecidableEq

/-- The world state the splash systems touch: the current app state (the
`CurrentState` of iyes_loopless), the pending `NextState` resource if one
has been inserted, the `SplashNext` resource if present, and the entities. -/
structure World where
  phase : AppGlobalState
  nextState : Option AppGlobalState
  splashNext : Option AppGlobalState
  entities : List Entity
deriving DecidableEq

/-- The `for` loop of `splash_fade` over the whole entity list: returns the
updated entities, the final `all_finished` flag, and the final `count`.
Entities without a `SplashFade` are not in the query: they are neither
ticked nor counted. -/
def fadeLoop (d : ℕ) : List Entity → List Entity × Bool × ℕ
  | [] => ([], true, 0)
  | e :: es =>
    let r := fadeLoop d es
    match e.fade with
    | none => (e :: r.1, r.2.1, r.2.2)
    | some f =>
      let q := fadeStep d (e.sprite, f)
      ({ e with sprite := q.1.1, fade := some q.1.2 } :: r.1,
       q.2 && r.2.1, r.2.2 + 1)

/-- `all_finished && count > 0`, the transition condition computed at the
end of `splash_fade`. -/
def allDoneB (d : ℕ) (es : List Entity) : Bool :=
  (fadeLoop d es).2.1 && decide (0 < (fadeLoop d es).2.2)

/-- One finished-this-call report per entity, as the spec's
`FadeItem.tick` result: entities outside the query contribute `true`
vacuously (they never hold `all_finished` down). -/
def stepFinished (d : ℕ) (e : Entity) : Bool :=
  match e.fade with
  | none => true
  | some f => (fadeStep d (e.sprite, f)).2

/-- The `splash_fade` system: run the loop over every queried entity, then
insert `NextState(next.0)` when `all_finished && count > 0`. The second
component lists the transition requests made (the `insert_resource`
`NextState` calls), for the temporal claims. The source fetches
`Res<SplashNext>` unconditionally and would panic were it absent; the
`none` arm below is unreachable in any run entered through `enterPhase`,
which always inserts it. -/
def splash_fade (d : ℕ) (w : World) : World × List AppGlobalState :=
  let r := fadeLoop d w.entities
  match w.splashNext with
  | some nxt =>
    if r.2.1 && decide (0 < r.2.2) then
      ({ w with entities := r.1, nextState := some nxt }, [nxt])
    else
      ({ w with entities := r.1 }, [])
  | none => ({ w with entities := r.1 }, [])

/-- The `splash_skip` system: scan the four event batches; when any
qualifying event is found, insert `NextState(AppGlobalState::MainMenu)` —
the target is hardcoded in the source, it does not read `SplashNext`.
Second component: the transition requests made. -/
def splash_skip (b : InputBatch) (w : World) : World × List AppGlobalState :=
  if splashSkipDone b then
    ({ w with nextState := some .MainMenu }, [.MainMenu])
  else
    (w, [])

/-- Entities spawned by `splash_init_iyes`: a camera and two sprites, all
tagged `SplashCleanup`, the sprites carrying
`SplashFade::new(0.0, 0.0, 1.25, 1.5)` and
`SplashFade::new(0.25, 0.75, 0.25, 1.75)` (here in nanoseconds). A
`SpriteBundle`'s default color is white with alpha 1. -/
def iyesSpawn : List Entity :=
  [ { cleanup := true, sprite := ⟨1⟩, fade := none },
    { cleanup := true, sprite := ⟨1⟩,
      fade := some (SplashFade.new 0 0 1250000000 1500000000) },
    { cleanup := true, sprite := ⟨1⟩,
      fade := some (SplashFade.new 250000000 750000000 250000000 1750000000) } ]

/-- Entities spawned by `splash_init_bevy`: a camera and one sprite with
`SplashFade::new(0.0, 0.5, 1.0, 1.5)`. -/
def bevySpawn : List Entity :=
  [ { cleanup := true, sprite := ⟨1⟩, fade := none },
    { cleanup := true, sprite := ⟨1⟩,
      fade := some (SplashFade.new 0 500000000 1000000000 1500000000) } ]

/-- Entering a state, per `SplashPlugin::build`'s enter systems:
`splash_init_iyes` inserts `SplashNext(SplashBevy)` and spawns its
entities; `splash_init_bevy` inserts `SplashNext(MainMenu)` and spawns its
entity; the other states have no enter systems registered here. -/
def enterPhase (p : AppGlobalState) (w : World) : World :=
  match p with
  | .SplashIyes =>
    { w with phase := p, splashNext := some .SplashBevy,
             entities := w.entities ++ iyesSpawn }
  | .SplashBevy =>
    { w with phase := p, splashNext := some .MainMenu,
             entities := w.entities ++ bevySpawn }
  | _ => { w with phase := p }

/-- Exiting a state, per `SplashPlugin::build`'s exit systems: for the two
splash states, `despawn_with_recursive::<SplashCleanup>` (modelled from its
use: remove every entity tagged `SplashCleanup`) and
`remove_resource::<SplashNext>` (drop the `SplashNext` resource) run on
EVERY exit of the state, whatever caused the transition; other states have
no exit systems registered here. (`despawn_with_recursive` and
`remove_resource` are referenced but not defined in src.) -/
def exitPhase (p : AppGlobalState) (w : World) : World :=
  if p = .SplashIyes ∨ p = .SplashBevy then
    { w with entities := w.entities.filter (fun e => !e.cleanup),
             splashNext := none }
  else w

/-- iyes_loopless state-transition step, run at the start of each frame:
if a `NextState` resource is pending, pop it, run the exit systems of the
current state, then the enter systems of the new state. -/
def applyTransition (w : World) : World :=
  match w.nextState with
  | none => w
  | some p => enterPhase p (exitPhase w.phase { w with nextState := none })

/-- One frame of the schedule `SplashPlugin::build` installs: the
state-transition stage, then — only while one of the two splash states is
current (the `run_in_state` conditions) — the `splash_skip` and
`splash_fade` systems. The two systems are registered in one
`ConditionSet` with no ordering constraint; they touch disjoint data
except for the `NextState` insert, and the order below (skip first, as
listed in the source) only decides which insert wins on the ties no claim
depends on. Returns the world and the transition requests made this
frame. -/
def frame (d : ℕ) (b : InputBatch) (w : World) : World × List AppGlobalState :=
  let w1 := applyTransition w
  if w1.phase = .SplashIyes ∨ w1.phase = .SplashBevy then
    let r2 := splash_skip b w1
    let r3 := splash_fade d r2.1
    (r3.1, r2.2 ++ r3.2)
  else
    (w1, [])

/-- The `SplashPlugin` configuration struct (its `state`/`next` are `S`
generic in the source; instantiated at `AppGlobalState` as the build
function hardcodes). -/
structure SplashPlugin where
  state : AppGlobalState
  next : AppGlobalState
  skippable : Bool
deriving DecidableEq

/-- `SplashPlugin::new(state, next)`: `skippable` defaults to `true`. -/
def SplashPlugin.new (state next : AppGlobalState) : SplashPlugin :=
  { state := state, next := next, skippable := true }

/-- The per-frame behavior `SplashPlugin::build` installs for a given
configuration. The build function (lines 131–156) never reads `self`:
neither `state`, `next`, nor `skippable` influences what is registered, so
the installed behavior is `frame` for every configuration. -/
def SplashPlugin.installedFrame (_cfg : SplashPlugin) :
    ℕ → InputBatch → World → World × List AppGlobalState :=
  frame

/-- The `SplashProgressPlugin` configuration struct. -/
structure SplashProgressPlugin where
  state : AppGlobalState
  skippable : Bool
deriving DecidableEq

/-- `SplashProgressPlugin::new(state)`: `skippable` defaults to `true`. -/
def SplashProgressPlugin.new (state : AppGlobalState) : SplashProgressPlugin :=
  { state := state, skippable := true }

/-- Modelled from the spec: the per-tick system of the cooperative
(`SplashProgressPlugin`) variant, whose implementation is absent from src —
only the struct and its constructor appear there. Per §4.6 the controller
advances the fade items exactly as the aggregator does, computes
`all_done`, polls the skip detector gated by `skippable` (§4.4), and writes
`completion_report = all_done OR skip_requested` to the external progress
tracker; it never requests a phase transition, so its request list is
constantly empty. Returns (updated entities, completion_report, transition
requests). -/
def coopTick (cfg : SplashProgressPlugin) (d : ℕ) (b : InputBatch)
    (es : List Entity) : List Entity × Bool × List AppGlobalState :=
  let r := fadeLoop d es
  let allDone := r.2.1 && decide (0 < r.2.2)
  let skip := cfg.skippable && containsPressStartSpec b
  (r.1, allDone || skip, [])

/-- How many of the four timers differ between two `SplashFade` values. -/
def changedTimers (f g : SplashFade) : ℕ :=
  (if f.timer_wait = g.timer_wait then 0 else 1) +
  (if f.timer_intro = g.timer_intro then 0 else 1) +
  (if f.timer_on = g.timer_on then 0 else 1) +
  (if f.timer_fade = g.timer_fade then 0 else 1)

/-- Iterated `fadeStep` over a list of frame deltas. -/
def runFade (ds : List ℕ) (p : Sprite × SplashFade) : Sprite × SplashFade :=
  ds.foldl (fun q d => (fadeStep d q).1) p

/-- A world freshly entered into `SplashIyes` (as `splash_init_iyes`
leaves it): `SplashNext` is `SplashBevy` and the iyes entities are live. -/
def iyesWorld : World :=
  { phase := .SplashIyes, nextState := none, splashNext := some .SplashBevy,
    entities := iyesSpawn }

/-- A tick's batch holding a single keyboard key press and nothing else. -/
def kbdPressBatch : InputBatch :=
  { kbd := [{ state := .Pressed }], mouse := [], gamepad := [], touch := [] }

/-- A tick's batch holding a single gamepad `ButtonChanged` event with new
value 0.0 — what Bevy emits when a gamepad button is released. -/
def gamepadReleaseBatch : InputBatch :=
  { kbd := [], mouse := [], gamepad := [⟨.ButtonChanged 0 0⟩], touch := [] }

/-- A `SplashFade` whose four timers all carry `finished = true`. -/
def finishedFade : SplashFade :=
  { timer_wait := ⟨10, 10, true⟩, timer_intro := ⟨10, 10, true⟩,
    timer_on := ⟨10, 10, true⟩, timer_fade := ⟨10, 10, true⟩ }

/-- `iyesWorld` hit by an external override: some other system has already
inserted `NextState(MainMenu)` while the splash is mid-run. -/
def iyesOverrideWorld : World :=
  { phase := .SplashIyes, nextState := some .MainMenu,
    splashNext := some .SplashBevy, entities := iyesSpawn }

end IyesSplash

namespace IyesSplash

lemma Timer.tick_duration (tm : Timer) (d : ℕ) :
    (tm.tick d).duration = tm.duration := by
  unfold Timer.tick
  dsimp only
  split_ifs <;> rfl

lemma fadeStep_finished_fix (d : ℕ) (s : Sprite) (f : SplashFade)
    (hw : f.timer_wait.finished = true) (hi : f.timer_intro.finished = true)
    (ho : f.timer_on.finished = true) (hf : f.timer_fade.finished = true) :
    fadeStep d (s, f) = ((s, f), true) := by
  unfold fadeStep
  simp [hw, hi, ho, hf]

lemma fadeLoop_all (d : ℕ) (es : List Entity) :
    (fadeLoop d es).2.1 = es.all (stepFinished d) := by
  induction es with
  | nil => rfl
  | cons e es ih =>
    cases h : e.fade with
    | none => simp [fadeLoop, h, stepFinished, ih]
    | some f => simp [fadeLoop, h, stepFinished, ih]

lemma fadeLoop_count (d : ℕ) (es : List Entity) :
    (fadeLoop d es).2.2 = es.countP (fun e => e.fade.isSome) := by
  induction es with
  | nil => rfl
  | cons e es ih =>
    cases h : e.fade with
    | none => simp [fadeLoop, h, List.countP_cons, ih]
    | some f => simp [fadeLoop, h, List.countP_cons, ih]

/-- Claim C1, counterexample: a `FadeItem` with all four stage durations 0
does NOT report `item_finished = true` on its very first tick, and its
zero-duration hold stage IS advanced on that tick — the hold branch is not
guarded by `duration > 0`, and a fresh zero-duration `Timer`'s stored
`finished` flag is still `false`. -/
theorem claim1_zero_duration_counterexample :
    (fadeStep 7 (⟨1⟩, SplashFade.new 0 0 0 0)).2 = false ∧
    (fadeStep 7 (⟨1⟩, SplashFade.new 0 0 0 0)).1.2.timer_on ≠
      (SplashFade.new 0 0 0 0).timer_on := by decide

/-- Claim C1, amended: only the wait and intro stages are skipped when
their configured duration is 0 (their timers are never advanced, and a
zero-duration wait and intro do not block the hold stage from being the one
advanced within the same tick); the hold and fade branches are not
duration-guarded, so with duration 0 each still consumes one tick before
its `finished` flag turns true, and a `FadeItem` with all four stage
durations 0 first reports `item_finished = true` on its third tick (for
every sequence of deltas — deltas are `Duration`s, non-negative by
construction). -/
theorem claim1_zero_duration_amended (d1 d2 d3 : ℕ) (s : Sprite)
    (f : SplashFade) :
    (f.timer_wait.duration = 0 →
      (fadeStep d1 (s, f)).1.2.timer_wait = f.timer_wait) ∧
    (f.timer_intro.duration = 0 →
      (fadeStep d1 (s, f)).1.2.timer_intro = f.timer_intro) ∧
    (f.timer_wait.duration = 0 → f.timer_intro.duration = 0 →
      f.timer_on.finished = false →
      (fadeStep d1 (s, f)).1.2.timer_on = f.timer_on.tick d1) ∧
    (fadeStep d1 (s, SplashFade.new 0 0 0 0)).2 = false ∧
    (fadeStep d2 ((fadeStep d1 (s, SplashFade.new 0 0 0 0)).1)).2 = false ∧
    (fadeStep d3 ((fadeStep d2
      ((fadeStep d1 (s, SplashFade.new 0 0 0 0)).1)).1)).2 = true := by
  refine ⟨?_, ?_, ?_, ?_, ?_, ?_⟩
  · intro hw
    unfold fadeStep
    simp only [hw, lt_irrefl, false_and, if_false]
    split_ifs <;> rfl
  · intro hi
    unfold fadeStep
    simp only [hi, lt_irrefl, false_and, if_false]
    split_ifs <;> rfl
  · intro hw hi ho
    unfold fadeStep
    simp [hw, hi, ho]
  · unfold fadeStep
    simp [SplashFade.new, Timer.fromSeconds]
  · simp [fadeStep, SplashFade.new, Timer.fromSeconds, Timer.tick]
  · simp [fadeStep, SplashFade.new, Timer.fromSeconds, Timer.tick]

/-- Claim C1, witness for the amended theorem at concrete inputs. -/
theorem claim1_zero_duration_amended_witness :
    (fadeStep 7 (⟨1⟩, SplashFade.new 0 0 0 0)).1.2.timer_wait =
      (SplashFade.new 0 0 0 0).timer_wait :=
  (claim1_zero_duration_amended 7 7 7 ⟨1⟩ (SplashFade.new 0 0 0 0)).1 rfl

/-- Claim C2 (confirmed): the transition condition computed by
`splash_fade` is `all_finished && count > 0`, which holds exactly when the
query is non-empty and every queried item reported finished in this same
call; with zero queried items it is `false` for every delta; and the system
requests `NextState(next)` exactly when that condition holds. -/
theorem claim2_all_done (d : ℕ) (es : List Entity) :
    (allDoneB d es = true ↔
      es.any (fun e => e.fade.isSome) = true ∧
        ∀ e ∈ es, stepFinished d e = true) ∧
    allDoneB d [] = false ∧
    (∀ w : World, (splash_fade d w).2 =
      (match w.splashNext with
       | some nxt => if allDoneB d w.entities = true then [nxt] else []
       | none => [])) := by
  refine ⟨?_, rfl, ?_⟩
  · unfold allDoneB
    rw [fadeLoop_all, fadeLoop_count]
    simp only [Bool.and_eq_true, decide_eq_true_eq, List.all_eq_true,
      List.countP_pos_iff, List.any_eq_true]
    constructor
    · rintro ⟨hall, e, he, hp⟩
      exact ⟨⟨e, he, hp⟩, hall⟩
    · rintro ⟨⟨e, he, hp⟩, hall⟩
      exact ⟨hall, e, he, hp⟩
  · intro w
    unfold splash_fade allDoneB
    cases w.splashNext
    · rfl
    · dsimp only
      split_ifs <;> rfl

/-- Claim C5 (code bug): an event batch whose only event is a gamepad
`ButtonChanged` with value 0.0 — a button release — makes `splash_skip`
request the skip transition, although the batch contains no press/start
event under the spec's classification (and the plugin's own doc says "any
gamepad button press"): the source matches every `ButtonChanged`,
releases included. -/
theorem claim5_gamepad_release_divergence :
    splashSkipDone gamepadReleaseBatch = true ∧
    containsPressStartSpec gamepadReleaseBatch = false ∧
    (splash_skip gamepadReleaseBatch iyesWorld).2 = [.MainMenu] := by decide

/-- Claim C8 (confirmed, modelled from the spec — the
`SplashProgressPlugin` systems are absent from src): the cooperative
controller's per-tick completion report equals
`all_done OR skip_requested`, and its transition-request list is empty on
every tick. -/
theorem claim8_coop_report (cfg : SplashProgressPlugin) (d : ℕ)
    (b : InputBatch) (es : List Entity) :
    (coopTick cfg d b es).2.1 =
      (allDoneB d es || (cfg.skippable && containsPressStartSpec b)) ∧
    (coopTick cfg d b es).2.2 = [] := by
  unfold coopTick allDoneB
  exact ⟨rfl, rfl⟩

/-- Claim C10 (confirmed): `splash_skip` never touches any entity — no
`FadeItem` timer, sprite or opacity — nor the current state or the
`SplashNext` bookkeeping; its only possible effect is inserting a
`NextState` transition request. -/
theorem claim10_skip_frame_effect (b : InputBatch) (w : World) :
    (splash_skip b w).1.entities = w.entities ∧
    (splash_skip b w).1.phase = w.phase ∧
    (splash_skip b w).1.splashNext = w.splashNext ∧
    ((splash_skip b w).1.nextState = w.nextState ∨
      (splash_skip b w).1.nextState = some .MainMenu) := by
  unfold splash_skip
  split <;> simp

/-- Claim C3 (code bug): in the `SplashIyes` state — whose configured next
state, per the `SplashNext` resource `splash_init_iyes` inserted, is
`SplashBevy` — a tick with a key press and unfinished items requests a
transition to `MainMenu`, the target hardcoded inside `splash_skip`, not to
the configured next state. -/
theorem claim3_skip_target_divergence :
    (frame 16000000 kbdPressBatch iyesWorld).2 = [.MainMenu] ∧
    iyesWorld.splashNext = some .SplashBevy ∧
    (AppGlobalState.MainMenu ≠ .SplashBevy) := by decide

/-- Claim C4 (confirmed): on a tick of a non-finished item, the written
alpha is 0 while the wait stage is active, `intro.elapsed / intro.duration`
(after this tick's advance) while the intro stage is active, 1 while the
hold stage is active, and `1 − fade.elapsed / fade.duration` while the fade
stage is active; a stage is active when its branch guard holds and every
earlier guard fails, as in the source's `else if` chain. The divisions are
stated under `0 < duration` (for the intro branch that bound is already in
its guard): in Rust they are `f32` divisions and a zero duration would give
`0.0/0.0 = NaN`, which the rational model does not represent. -/
theorem claim4_opacity (d : ℕ) (s : Sprite) (f : SplashFade) :
    (0 < f.timer_wait.duration ∧ f.timer_wait.finished = false →
      (fadeStep d (s, f)).1.1.a = 0) ∧
    (¬(0 < f.timer_wait.duration ∧ f.timer_wait.finished = false) →
      0 < f.timer_intro.duration ∧ f.timer_intro.finished = false →
      (fadeStep d (s, f)).1.1.a =
        ((f.timer_intro.tick d).elapsed : ℚ) / (f.timer_intro.duration : ℚ)) ∧
    (¬(0 < f.timer_wait.duration ∧ f.timer_wait.finished = false) →
      ¬(0 < f.timer_intro.duration ∧ f.timer_intro.finished = false) →
      f.timer_on.finished = false →
      (fadeStep d (s, f)).1.1.a = 1) ∧
    (¬(0 < f.timer_wait.duration ∧ f.timer_wait.finished = false) →
      ¬(0 < f.timer_intro.duration ∧ f.timer_intro.finished = false) →
      f.timer_on.finished = true → f.timer_fade.finished = false →
      0 < f.timer_fade.duration →
      (fadeStep d (s, f)).1.1.a =
        1 - ((f.timer_fade.tick d).elapsed : ℚ) / (f.timer_fade.duration : ℚ)) := by
  refine ⟨?_, ?_, ?_, ?_⟩
  · intro hw
    unfold fadeStep
    rw [if_pos hw]
  · intro hw hi
    unfold fadeStep
    rw [if_neg hw, if_pos hi]
    simp [Timer.percent, Timer.tick_duration]
  · intro hw hi ho
    unfold fadeStep
    rw [if_neg hw, if_neg hi, if_pos ho]
  · intro hw hi ho hf _
    unfold fadeStep
    rw [if_neg hw, if_neg hi, if_neg (by simp [ho]), if_pos hf]
    simp [Timer.percent_left, Timer.percent, Timer.tick_duration]

/-- Claim C4, witness: the intro branch at a concrete mid-intro tick. -/
theorem claim4_opacity_witness :
    (fadeStep 5 (⟨1⟩, SplashFade.new 0 10 10 10)).1.1.a =
      (((SplashFade.new 0 10 10 10).timer_intro.tick 5).elapsed : ℚ) /
        ((SplashFade.new 0 10 10 10).timer_intro.duration : ℚ) :=
  (claim4_opacity 5 ⟨1⟩ (SplashFade.new 0 10 10 10)).2.1
    (by decide) (by decide)

/-- Claim C6 (code bug): with `skippable: false` in the plugin
configuration, a keyboard press during the splash still requests the skip
transition — `SplashPlugin::build` reads none of the struct's fields, so
the per-frame behavior it installs is the same `frame` for every
configuration and `splash_skip` runs unconditionally. -/
theorem claim6_skippable_ignored :
    ({ state := .SplashIyes, next := .SplashBevy,
       skippable := false } : SplashPlugin).skippable = false ∧
    (({ state := .SplashIyes, next := .SplashBevy,
        skippable := false } : SplashPlugin).installedFrame
      16000000 kbdPressBatch iyesWorld).2 = [.MainMenu] := by decide

/-- Claim C7 (confirmed): whenever a transition fires out of a splash
state — whatever inserted the pending `NextState`, the splash's own systems
or an external override — the exit systems run unconditionally as part of
the transition: afterwards no `SplashCleanup`-tagged entity survives and
the `SplashNext` bookkeeping is cleared, before the new state's enter
systems run; and everything the splash init systems spawn is
`SplashCleanup`-tagged, so re-entry starts clean. -/
theorem claim7_exit_cleanup (w : World) (p : AppGlobalState)
    (hphase : w.phase = .SplashIyes ∨ w.phase = .SplashBevy)
    (hreq : w.nextState = some p) :
    (exitPhase w.phase { w with nextState := none }).entities.all
      (fun e => !e.cleanup) = true ∧
    (exitPhase w.phase { w with nextState := none }).splashNext = none ∧
    applyTransition w =
      enterPhase p (exitPhase w.phase { w with nextState := none }) ∧
    iyesSpawn.all (fun e => e.cleanup) = true ∧
    bevySpawn.all (fun e => e.cleanup) = true := by
  refine ⟨?_, ?_, ?_, by decide, by decide⟩
  · unfold exitPhase
    rw [if_pos hphase]
    simp [List.all_eq_true, List.mem_filter]
  · unfold exitPhase
    rw [if_pos hphase]
  · unfold applyTransition
    rw [hreq]

/-- Claim C7, witness: an external override (`NextState(MainMenu)` inserted
mid-run by someone else) out of `SplashIyes` still destroys every tagged
entity. -/
theorem claim7_exit_cleanup_witness :
    (exitPhase iyesOverrideWorld.phase
      { iyesOverrideWorld with nextState := none }).entities.all
      (fun e => !e.cleanup) = true :=
  (claim7_exit_cleanup iyesOverrideWorld .MainMenu (Or.inl rfl) rfl).1

/-- Claim C9 (confirmed): one call of the fade tick advances at most one of
the item's four timers, and once all four timers carry `finished = true`
the item is absorbing — every subsequent tick sequence leaves the sprite
and all four timers untouched. -/
theorem claim9_single_advance_absorbing (d : ℕ) (s : Sprite)
    (f : SplashFade) :
    changedTimers f (fadeStep d (s, f)).1.2 ≤ 1 ∧
    (f.timer_wait.finished = true → f.timer_intro.finished = true →
      f.timer_on.finished = true → f.timer_fade.finished = true →
      ∀ ds : List ℕ, runFade ds (s, f) = (s, f)) := by
  constructor
  · unfold fadeStep
    dsimp only
    split_ifs <;> simp [changedTimers] <;> split_ifs <;> simp
  · intro hw hi ho hf ds
    induction ds with
    | nil => rfl
    | cons d0 ds ih =>
      show runFade ds (fadeStep d0 (s, f)).1 = (s, f)
      rw [fadeStep_finished_fix d0 s f hw hi ho hf]
      exact ih

/-- Claim C9, witness: two further ticks of an all-finished item change
nothing. -/
theorem claim9_single_advance_absorbing_witness :
    runFade [3, 5] (⟨0⟩, finishedFade) = (⟨0⟩, finishedFade) :=
  (claim9_single_advance_absorbing 3 ⟨0⟩ finishedFade).2
    rfl rfl rfl rfl [3, 5]

end IyesSplash
